import Mathlib

/-!
Verification of the Mosaic portfolio-risk governor (the CPPI engine in
src/agents/governor.py).  Python floats are modelled as rationals (ℚ); the
SQLite-backed storage is modelled as explicit state (a stored peak value, an
append-only list of state records and a list of risk events); wall-clock
timestamps are threaded as an opaque string parameter; exceptions are
modelled with Except.
-/

namespace Mosaic

/-- Risk zone classification for the traffic light system
    (class RiskZone in governor.py). -/
inductive RiskZone
  | GREEN
  | YELLOW
  | RED
deriving DecidableEq, Repr

/-- CPPIEngine.floor_ratio, set to 0.9 in CPPIEngine.__init__. -/
def floor_ratio : ℚ := 9 / 10

/-- CPPIEngine.multipliers, the zone → CPPI multiplier map set in
    CPPIEngine.__init__. -/
def multipliers : RiskZone → ℚ
  | RiskZone.GREEN => 5
  | RiskZone.YELLOW => 3
  | RiskZone.RED => 1

/-- CPPIEngine._calculate_drawdown: `if peak_value == 0: return 0.0;
    return (peak_value - current_value) / peak_value`. -/
def calculate_drawdown (current_value peak_value : ℚ) : ℚ :=
  if peak_value = 0 then 0 else (peak_value - current_value) / peak_value

/-- CPPIEngine._determine_risk_zone: GREEN when drawdown ≤ 0.05, YELLOW when
    drawdown ≤ 0.08, RED otherwise. -/
def determine_risk_zone (drawdown_pct : ℚ) : RiskZone :=
  if drawdown_pct ≤ 5 / 100 then RiskZone.GREEN
  else if drawdown_pct ≤ 8 / 100 then RiskZone.YELLOW
  else RiskZone.RED

/-- CPPIEngine._calculate_cppi_allocation: floor = floor_ratio * peak,
    cushion = max(0, value - floor), equity = min(1, cushion * multiplier /
    value) when value > 0 else 0, liquid = 1 - equity. -/
def calculate_cppi_allocation (current_value peak_value : ℚ)
    (risk_zone : RiskZone) : ℚ × ℚ :=
  let floor := floor_ratio * peak_value
  let cushion := max 0 (current_value - floor)
  let multiplier := multipliers risk_zone
  let equity_allocation :=
    if current_value > 0 then min 1 (cushion * multiplier / current_value)
    else 0
  (equity_allocation, 1 - equity_allocation)

/-- CPPIEngine._get_recommended_action. -/
def get_recommended_action (risk_zone : RiskZone)
    (equity_allocation : ℚ) : String :=
  match risk_zone with
  | RiskZone.RED =>
      if equity_allocation < 3 / 10 then
        "EMERGENCY: Liquidate to Liquid BeES immediately"
      else
        "RED ZONE: Reduce equity exposure to match CPPI allocation"
  | RiskZone.YELLOW =>
      "CAUTION: Trim high-beta positions, move to arbitrage funds"
  | RiskZone.GREEN =>
      "ALL CLEAR: Full equity allocation permitted"

/-- CPPIEngine._update_peak_value acting on the stored peak: the stored value
    becomes new_value exactly when new_value > current_peak, and the Bool
    records whether the UPDATE statement was executed (a database write). -/
def update_peak_value (current_peak new_value : ℚ) : ℚ × Bool :=
  if new_value > current_peak then (new_value, true) else (current_peak, false)

/-- Folding a sequence of _update_peak_value calls over the stored peak. -/
def run_peak_updates (initial : ℚ) (values : List ℚ) : ℚ :=
  values.foldl (fun p v => (update_peak_value p v).1) initial

/-- The audit ledger state: the risk zone column of the append-only
    portfolio_state table (in insertion order, timestamps increasing) and the
    ZONE_CHANGE rows of the risk_events table as (previous, new) zone pairs. -/
structure LedgerState where
  states : List RiskZone
  events : List (RiskZone × RiskZone)
deriving DecidableEq, Repr

/-- The SELECT in Governor._check_zone_changes: it runs after the current
    state row was inserted, and ORDER BY timestamp DESC LIMIT 1 OFFSET 1
    skips that row, returning the zone of the most recent record written
    before the current one (none if the ledger was previously empty). -/
def last_recorded_zone (prior_states : List RiskZone) : Option RiskZone :=
  prior_states.getLast?

/-- One audit write step: CPPIEngine._save_portfolio_state appends the new
    state row, then Governor._check_zone_changes logs a ZONE_CHANGE event
    exactly when a previous row exists and its zone differs.  The Bool
    records whether an event row was inserted. -/
def save_and_check (s : LedgerState) (risk_zone : RiskZone) :
    LedgerState × Bool :=
  let states2 := s.states ++ [risk_zone]
  match last_recorded_zone s.states with
  | some prev =>
      if prev ≠ risk_zone then
        ({ states := states2, events := s.events ++ [(prev, risk_zone)] },
          true)
      else
        ({ states := states2, events := s.events }, false)
  | none => ({ states := states2, events := s.events }, false)

/-- Folding a sequence of audits (by their classified zones) over the
    ledger. -/
def run_audit_zones (s : LedgerState) (zones : List RiskZone) : LedgerState :=
  zones.foldl (fun st z => (save_and_check st z).1) s

/-- An individual stock holding (dataclass Holding in governor.py). -/
structure Holding where
  symbol : String
  quantity : Int
  avg_price : ℚ
  current_price : ℚ
  value : ℚ
  day_change : ℚ
  day_change_pct : ℚ
  unrealized_pnl : ℚ
  unrealized_pnl_pct : ℚ
deriving DecidableEq, Repr

/-- Governor._get_mock_holdings: the hard-coded mock portfolio
    (total value 24800 + 15900 + 21300 = 62000). -/
def get_mock_holdings : List Holding :=
  [⟨"RELIANCE", 10, 2500, 2480, 24800, -20, -(8/10), -200, -(8/10)⟩,
   ⟨"TCS", 5, 3200, 3180, 15900, -20, -(6/10), -100, -(6/10)⟩,
   ⟨"INFY", 15, 1400, 1420, 21300, 20, 14/10, 300, 21/10⟩]

/-- Governor.fetch_live_holdings.  The brokerage collaborator is modelled as
    none (no Kite session available) or some result, the result being either
    the processed list of live holdings or the exception the fetch raised.
    On no session the code logs a warning and returns the mock holdings; on
    an exception it logs the error and falls back to the mock holdings; it
    never raises and never reports failure to its caller. -/
def fetch_live_holdings
    (kite_session : Option (Except String (List Holding))) : List Holding :=
  match kite_session with
  | none => get_mock_holdings
  | some (Except.error _) => get_mock_holdings
  | some (Except.ok holdings) => holdings

/-- The durable store visible to one audit: the peak_tracker row, the audit
    ledger, and fault-injection flags saying whether each of the three kinds
    of write (peak UPDATE, portfolio_state INSERT, risk_events INSERT) would
    raise a storage error when executed. -/
structure Storage where
  peak : ℚ
  ledger : LedgerState
  peak_write_fails : Bool
  state_write_fails : Bool
  event_write_fails : Bool
deriving DecidableEq, Repr

/-- The serializable risk assessment dictionary built at the end of
    Governor.audit_risk (percentage scales as in the code). -/
structure RiskAssessment where
  status : RiskZone
  total_value : ℚ
  peak_value : ℚ
  drawdown_pct : ℚ
  floor_value : ℚ
  cushion : ℚ
  equity_allocation_target : ℚ
  liquid_allocation_target : ℚ
  action : String
  holdings : List Holding
  timestamp : String
deriving DecidableEq, Repr

/-- What Governor.audit_risk hands back: either the assessment dictionary or
    the dictionary built in the except-branch, carrying status ERROR, the
    exception message and a timestamp. -/
inductive AuditResponse
  | assessment (a : RiskAssessment)
  | errorResponse (error : String) (timestamp : String)
deriving DecidableEq, Repr

/-- RiskZone.value in the Python enum: the zone as the string stored in the
    database and returned in the response status field. -/
def RiskZone.value : RiskZone → String
  | RiskZone.GREEN => "GREEN"
  | RiskZone.YELLOW => "YELLOW"
  | RiskZone.RED => "RED"

/-- The status entry of the returned dictionary: the zone string on success,
    ERROR from the except-branch. -/
def AuditResponse.statusString : AuditResponse → String
  | AuditResponse.assessment a => a.status.value
  | AuditResponse.errorResponse _ _ => "ERROR"

/-- CPPIEngine._update_peak_value as an effectful step: the UPDATE statement
    runs only when the new total exceeds the stored peak, and raises a
    storage error when the peak write is faulted. -/
def update_peak_step (store : Storage) (total_value : ℚ) :
    Except (String × Storage) Storage :=
  if total_value > store.peak then
    if store.peak_write_fails then Except.error ("peak write failed", store)
    else Except.ok { store with peak := total_value }
  else Except.ok store

/-- CPPIEngine._save_portfolio_state as an effectful step: appends the state
    row, or raises a storage error when the state write is faulted. -/
def save_state_step (store : Storage) (risk_zone : RiskZone) :
    Except (String × Storage) Storage :=
  if store.state_write_fails then Except.error ("state write failed", store)
  else Except.ok { store with
    ledger := { store.ledger with
      states := store.ledger.states ++ [risk_zone] } }

/-- Governor._check_zone_changes as an effectful step (run after the state
    row insert, with prior the rows before it): inserts a ZONE_CHANGE event
    when the previous zone exists and differs, raising a storage error when
    the event write is faulted; otherwise does nothing. -/
def log_event_step (store : Storage) (prior : List RiskZone)
    (risk_zone : RiskZone) : Except (String × Storage) Storage :=
  match last_recorded_zone prior with
  | some prev =>
      if prev ≠ risk_zone then
        if store.event_write_fails then
          Except.error ("event write failed", store)
        else
          Except.ok { store with
            ledger := { store.ledger with
              events := store.ledger.events ++ [(prev, risk_zone)] } }
      else Except.ok store
  | none => Except.ok store

/-- The body of the try-block of Governor.audit_risk: fetch holdings (never
    fails, see fetch_live_holdings), sum their values, update the peak, use
    max(stored peak, total) as the effective peak, compute drawdown, zone,
    CPPI allocation and action, persist the state row, log a zone-change
    event if needed, and build the response dictionary.  A raised storage
    error aborts the remainder, carrying the storage as of the failing
    statement. -/
def audit_pipeline (kite_session : Option (Except String (List Holding)))
    (store : Storage) (now : String) :
    Except (String × Storage) (RiskAssessment × Storage) := do
  let holdings := fetch_live_holdings kite_session
  let total_value := (holdings.map Holding.value).sum
  let peak0 := store.peak
  let store1 ← update_peak_step store total_value
  let peak_value := max peak0 total_value
  let drawdown_pct := calculate_drawdown total_value peak_value
  let risk_zone := determine_risk_zone drawdown_pct
  let alloc := calculate_cppi_allocation total_value peak_value risk_zone
  let recommended_action := get_recommended_action risk_zone alloc.1
  let prior := store1.ledger.states
  let store2 ← save_state_step store1 risk_zone
  let store3 ← log_event_step store2 prior risk_zone
  Except.ok
    ({ status := risk_zone
       total_value := total_value
       peak_value := peak_value
       drawdown_pct := drawdown_pct * 100
       floor_value := peak_value * floor_ratio
       cushion := max 0 (total_value - peak_value * floor_ratio)
       equity_allocation_target := alloc.1 * 100
       liquid_allocation_target := alloc.2 * 100
       action := recommended_action
       holdings := holdings
       timestamp := now }, store3)

/-- Governor.audit_risk: the try-block result on success, and the
    except-branch dictionary {status ERROR, error message, timestamp} when
    any internal step raised. -/
def audit_risk (kite_session : Option (Except String (List Holding)))
    (store : Storage) (now : String) : AuditResponse × Storage :=
  match audit_pipeline kite_session store now with
  | Except.ok (a, store2) => (AuditResponse.assessment a, store2)
  | Except.error (e, store2) => (AuditResponse.errorResponse e now, store2)

/-- A store whose next portfolio_state INSERT raises a storage error
    (peak 100000, empty ledger). -/
def state_write_failing_store : Storage :=
  { peak := 100000, ledger := ⟨[], []⟩, peak_write_fails := false,
    state_write_fails := true, event_write_fails := false }

/-- A store whose next risk_events INSERT raises a storage error; the last
    recorded zone is GREEN, so a RED audit must log a ZONE_CHANGE event. -/
def event_write_failing_store : Storage :=
  { peak := 100000, ledger := ⟨[RiskZone.GREEN], []⟩,
    peak_write_fails := false, state_write_fails := false,
    event_write_fails := true }

/-- A store where every write succeeds (peak 100000, empty ledger). -/
def healthy_store : Storage :=
  { peak := 100000, ledger := ⟨[], []⟩, peak_write_fails := false,
    state_write_fails := false, event_write_fails := false }

/-- The assessment audit_risk computes from the mock holdings against a
    stored peak of 100000: total 62000, drawdown 38%, RED zone, cushion 0,
    everything in liquid, emergency liquidation advice. -/
def mock_audit_assessment : RiskAssessment :=
  { status := RiskZone.RED
    total_value := 62000
    peak_value := 100000
    drawdown_pct := 38
    floor_value := 90000
    cushion := 0
    equity_allocation_target := 0
    liquid_allocation_target := 100
    action := "EMERGENCY: Liquidate to Liquid BeES immediately"
    holdings := get_mock_holdings
    timestamp := "t" }

/-- The total portfolio value audit_risk computes: the sum of the values of
    the fetched holdings. -/
def audit_total_value
    (kite_session : Option (Except String (List Holding))) : ℚ :=
  ((fetch_live_holdings kite_session).map Holding.value).sum

/-- The risk zone audit_risk classifies on a given store: drawdown of the
    fetched total against max(stored peak, total), then the zone map. -/
def audit_zone (kite_session : Option (Except String (List Holding)))
    (store : Storage) : RiskZone :=
  determine_risk_zone
    (calculate_drawdown (audit_total_value kite_session)
      (max store.peak (audit_total_value kite_session)))

/-- A store whose next peak_tracker UPDATE raises a storage error; its peak
    50000 is below the mock total 62000, so a no-session audit executes that
    UPDATE. -/
def peak_write_failing_store : Storage :=
  { peak := 50000, ledger := ⟨[], []⟩, peak_write_fails := true,
    state_write_fails := false, event_write_fails := false }

/-- C1: Floor protection.  When the portfolio value is at or below the floor
    floor_ratio * peak, the cushion max(0, value - floor) is 0 and
    _calculate_cppi_allocation returns equity allocation 0 and liquid
    allocation 1, for every zone multiplier. -/
theorem C1_floor_protection (peak_value current_value : ℚ)
    (risk_zone : RiskZone)
    (h : current_value ≤ floor_ratio * peak_value) :
    max 0 (current_value - floor_ratio * peak_value) = 0 ∧
    (calculate_cppi_allocation current_value peak_value risk_zone).1 = 0 ∧
    (calculate_cppi_allocation current_value peak_value risk_zone).2 = 1 := by
  have hc : max 0 (current_value - floor_ratio * peak_value) = 0 :=
    max_eq_left (by linarith)
  refine ⟨hc, ?_, ?_⟩ <;>
    simp only [calculate_cppi_allocation, hc, zero_mul, zero_div, min_eq_right
      (by norm_num : (0:ℚ) ≤ 1), sub_zero]
  · split <;> norm_num
  · split <;> norm_num

/-- Witness for C1 at spec Example A: peak = 100000, value = 85000, RED zone:
    the value is below the 90000 floor, so the equity allocation is 0. -/
theorem C1_floor_protection_witness :
    max 0 ((85000:ℚ) - floor_ratio * 100000) = 0 ∧
    (calculate_cppi_allocation 85000 100000 RiskZone.RED).1 = 0 ∧
    (calculate_cppi_allocation 85000 100000 RiskZone.RED).2 = 1 :=
  C1_floor_protection 100000 85000 RiskZone.RED (by norm_num [floor_ratio])

/-- C2: CPPI allocation formula.  _calculate_cppi_allocation returns
    equity = min(1, max(0, value - floor_ratio * peak) * multiplier / value)
    when value > 0 and equity = 0 when value ≤ 0; liquid = 1 - equity; and
    equity always lies in [0,1]. -/
theorem C2_cppi_allocation_formula (current_value peak_value : ℚ)
    (risk_zone : RiskZone) :
    (0 < current_value →
      (calculate_cppi_allocation current_value peak_value risk_zone).1 =
        min 1 (max 0 (current_value - floor_ratio * peak_value) *
          multipliers risk_zone / current_value)) ∧
    (current_value ≤ 0 →
      (calculate_cppi_allocation current_value peak_value risk_zone).1 = 0) ∧
    (calculate_cppi_allocation current_value peak_value risk_zone).2 =
      1 - (calculate_cppi_allocation current_value peak_value risk_zone).1 ∧
    0 ≤ (calculate_cppi_allocation current_value peak_value risk_zone).1 ∧
    (calculate_cppi_allocation current_value peak_value risk_zone).1 ≤ 1 := by
  have hm : 0 < multipliers risk_zone := by
    cases risk_zone <;> norm_num [multipliers]
  refine ⟨fun hv => ?_, fun hv => ?_, ?_, ?_, ?_⟩
  · simp only [calculate_cppi_allocation, if_pos hv]
  · simp only [calculate_cppi_allocation, if_neg (not_lt.mpr hv)]
  · simp only [calculate_cppi_allocation]
  · simp only [calculate_cppi_allocation]
    split
    · rename_i hv
      exact le_min (by norm_num)
        (div_nonneg (mul_nonneg (le_max_left 0 _) hm.le) hv.le)
    · exact le_refl 0
  · simp only [calculate_cppi_allocation]
    split
    · exact min_le_left 1 _
    · norm_num

/-- Witness for C2 at spec Example B (peak = 100000, value = 97000, GREEN:
    equity = min(1, 7000 * 5 / 97000) = 35/97) and at value = 0 (Example C). -/
theorem C2_cppi_allocation_formula_witness :
    (calculate_cppi_allocation 97000 100000 RiskZone.GREEN).1 =
      min 1 (max 0 ((97000:ℚ) - floor_ratio * 100000) *
        multipliers RiskZone.GREEN / 97000) ∧
    (calculate_cppi_allocation 0 100000 RiskZone.GREEN).1 = 0 :=
  ⟨(C2_cppi_allocation_formula 97000 100000 RiskZone.GREEN).1 (by norm_num),
   ((C2_cppi_allocation_formula 0 100000 RiskZone.GREEN).2.1 (le_refl 0))⟩

/-- C3 counterexample: _calculate_drawdown performs no clamping to 0, so at
    value = 110000, peak = 100000 it returns -1/10, which is negative and is
    not max(0, (peak - value)/peak) = 0, contradicting the claim that the
    returned drawdown is never negative. -/
theorem C3_drawdown_counterexample :
    calculate_drawdown 110000 100000 = -(1/10) ∧
    calculate_drawdown 110000 100000 < 0 ∧
    calculate_drawdown 110000 100000 ≠
      max 0 (((100000:ℚ) - 110000) / 100000) := by
  norm_num [calculate_drawdown]

/-- C3 amended: _calculate_drawdown returns 0 when peak = 0 and the unclamped
    ratio (peak - value)/peak otherwise, which is negative when
    value > peak > 0; however audit_risk passes peak = max(stored peak,
    value), and against that peak the drawdown is never negative and lies in
    [0,1] whenever value ≥ 0 and the stored peak is ≥ 0. -/
theorem C3_drawdown_amended (current_value peak_value : ℚ) :
    (calculate_drawdown current_value peak_value =
      if peak_value = 0 then 0
      else (peak_value - current_value) / peak_value) ∧
    (0 ≤ current_value → 0 ≤ peak_value →
      0 ≤ calculate_drawdown current_value (max peak_value current_value) ∧
      calculate_drawdown current_value (max peak_value current_value) ≤ 1) := by
  refine ⟨rfl, fun hv hp => ?_⟩
  by_cases h0 : max peak_value current_value = 0
  · simp [calculate_drawdown, h0]
  · have hpos : 0 < max peak_value current_value :=
      lt_of_le_of_ne (le_max_of_le_left hp) (Ne.symm h0)
    have hle : current_value ≤ max peak_value current_value :=
      le_max_right peak_value current_value
    constructor
    · simp only [calculate_drawdown, if_neg h0]
      exact div_nonneg (by linarith) hpos.le
    · simp only [calculate_drawdown, if_neg h0]
      rw [div_le_one hpos]
      linarith

/-- Witness for C3 amended at value = 85000, stored peak = 100000: the
    drawdown audit_risk computes is 3/20 ∈ [0,1]. -/
theorem C3_drawdown_amended_witness :
    calculate_drawdown 85000 100000 =
      (if (100000:ℚ) = 0 then 0 else ((100000:ℚ) - 85000) / 100000) ∧
    (0 ≤ calculate_drawdown 85000 (max 100000 85000) ∧
      calculate_drawdown 85000 (max 100000 85000) ≤ 1) :=
  ⟨(C3_drawdown_amended 85000 100000).1,
   (C3_drawdown_amended 85000 100000).2 (by norm_num) (by norm_num)⟩

/-- C4: Zone classification.  _determine_risk_zone maps drawdown ≤ 0.05 to
    GREEN, 0.05 < drawdown ≤ 0.08 to YELLOW and drawdown > 0.08 to RED, the
    boundary values 0.05 and 0.08 landing in the safer zone; the result is
    always exactly one of the three zones. -/
theorem C4_zone_classification (drawdown_pct : ℚ) :
    (drawdown_pct ≤ 5 / 100 →
      determine_risk_zone drawdown_pct = RiskZone.GREEN) ∧
    (5 / 100 < drawdown_pct → drawdown_pct ≤ 8 / 100 →
      determine_risk_zone drawdown_pct = RiskZone.YELLOW) ∧
    (8 / 100 < drawdown_pct →
      determine_risk_zone drawdown_pct = RiskZone.RED) ∧
    determine_risk_zone (5 / 100) = RiskZone.GREEN ∧
    determine_risk_zone (8 / 100) = RiskZone.YELLOW ∧
    (determine_risk_zone drawdown_pct = RiskZone.GREEN ∨
      determine_risk_zone drawdown_pct = RiskZone.YELLOW ∨
      determine_risk_zone drawdown_pct = RiskZone.RED) := by
  refine ⟨fun h => ?_, fun h1 h2 => ?_, fun h => ?_, ?_, ?_, ?_⟩
  · simp [determine_risk_zone, h]
  · simp [determine_risk_zone, not_le.mpr h1, h2]
  · have h1 : ¬ drawdown_pct ≤ 5 / 100 := by linarith
    have h2 : ¬ drawdown_pct ≤ 8 / 100 := by linarith
    simp [determine_risk_zone, h1, h2]
  · norm_num [determine_risk_zone]
  · norm_num [determine_risk_zone]
  · cases h : determine_risk_zone drawdown_pct
    · exact Or.inl rfl
    · exact Or.inr (Or.inl rfl)
    · exact Or.inr (Or.inr rfl)

/-- Witness for C4 at drawdowns 0.03, 0.06 and 0.15: GREEN, YELLOW, RED. -/
theorem C4_zone_classification_witness :
    determine_risk_zone (3 / 100) = RiskZone.GREEN ∧
    determine_risk_zone (6 / 100) = RiskZone.YELLOW ∧
    determine_risk_zone (15 / 100) = RiskZone.RED :=
  ⟨(C4_zone_classification (3 / 100)).1 (by norm_num),
   (C4_zone_classification (6 / 100)).2.1 (by norm_num) (by norm_num),
   (C4_zone_classification (15 / 100)).2.2.1 (by norm_num)⟩

/-- One _update_peak_value call never lowers the stored peak. -/
theorem update_peak_value_le (current_peak v : ℚ) :
    current_peak ≤ (update_peak_value current_peak v).1 := by
  unfold update_peak_value
  split
  · rename_i h
    exact le_of_lt h
  · exact le_refl current_peak

/-- The stored peak never drops below its starting value across any sequence
    of _update_peak_value calls. -/
theorem le_run_peak_updates (values : List ℚ) :
    ∀ initial : ℚ, initial ≤ run_peak_updates initial values := by
  induction values with
  | nil => intro initial; exact le_refl initial
  | cons v vs ih =>
      intro initial
      calc initial ≤ (update_peak_value initial v).1 :=
            update_peak_value_le initial v
        _ ≤ run_peak_updates (update_peak_value initial v).1 vs := ih _
        _ = run_peak_updates initial (v :: vs) := rfl

/-- C5: Peak monotonicity and idempotence.  Each _update_peak_value call
    never lowers the stored peak; across any sequence of calls the stored
    peak is non-decreasing (extending the sequence never lowers it); and a
    second call with the identical value performs no write. -/
theorem C5_peak_monotone_idempotent :
    (∀ current_peak v : ℚ, current_peak ≤ (update_peak_value current_peak v).1) ∧
    (∀ (initial : ℚ) (us vs : List ℚ),
      run_peak_updates initial us ≤ run_peak_updates initial (us ++ vs)) ∧
    (∀ current_peak v : ℚ,
      (update_peak_value (update_peak_value current_peak v).1 v).2 = false) := by
  refine ⟨update_peak_value_le, fun initial us vs => ?_, fun p v => ?_⟩
  · unfold run_peak_updates
    rw [List.foldl_append]
    exact le_run_peak_updates vs _
  · by_cases h : v > p
    · simp [update_peak_value, h, lt_irrefl]
    · simp [update_peak_value, h]

/-- C6: Peak update contract.  If the candidate exceeds the current peak,
    _update_peak_value writes the candidate as the new stored peak; otherwise
    it performs no write and the stored peak is unchanged.  The peak
    audit_risk then uses, max(current_peak, candidate), is exactly the stored
    peak after the update. -/
theorem C6_peak_update_contract (current_peak candidate : ℚ) :
    (current_peak < candidate →
      update_peak_value current_peak candidate = (candidate, true)) ∧
    (candidate ≤ current_peak →
      update_peak_value current_peak candidate = (current_peak, false)) ∧
    max current_peak candidate = (update_peak_value current_peak candidate).1 := by
  refine ⟨fun h => ?_, fun h => ?_, ?_⟩
  · simp [update_peak_value, h]
  · simp [update_peak_value, not_lt.mpr h]
  · unfold update_peak_value
    split
    · rename_i h
      exact max_eq_right (le_of_lt h)
    · rename_i h
      exact max_eq_left (not_lt.mp h)

/-- Witness for C6: candidate 110000 over peak 100000 writes the new peak;
    candidate 85000 under peak 100000 leaves it unchanged with no write. -/
theorem C6_peak_update_contract_witness :
    update_peak_value 100000 110000 = (110000, true) ∧
    update_peak_value 100000 85000 = (100000, false) :=
  ⟨(C6_peak_update_contract 100000 110000).1 (by norm_num),
   (C6_peak_update_contract 100000 85000).2.1 (by norm_num)⟩

/-- C7: Zone-change event iff.  On an audit write, a ZONE_CHANGE event is
    appended exactly when the most recently written prior state record
    exists and its zone differs from the newly classified zone (no event
    when the ledger was previously empty); the state row itself is always
    appended; the event list grows by one exactly when the event fires; and
    the audit sequence GREEN, GREEN, YELLOW from an empty ledger yields
    exactly one event. -/
theorem C7_zone_change_event_iff (s : LedgerState) (risk_zone : RiskZone) :
    ((save_and_check s risk_zone).2 = true ↔
      ∃ prev, last_recorded_zone s.states = some prev ∧ prev ≠ risk_zone) ∧
    (save_and_check s risk_zone).1.states = s.states ++ [risk_zone] ∧
    ((save_and_check s risk_zone).2 = true →
      (save_and_check s risk_zone).1.events.length = s.events.length + 1) ∧
    ((save_and_check s risk_zone).2 = false →
      (save_and_check s risk_zone).1.events = s.events) ∧
    (run_audit_zones ⟨[], []⟩
      [RiskZone.GREEN, RiskZone.GREEN, RiskZone.YELLOW]).events.length = 1 := by
  unfold save_and_check
  refine ⟨?_, ?_, ?_, ?_, rfl⟩ <;>
    cases h : last_recorded_zone s.states with
  | none => simp
  | some prev =>
      by_cases hne : prev = risk_zone <;> simp [hne]

/-- Every component of the CPPI engine output of one full computation step on
    spec Example B: value 97000 against stored peak 100000 stays GREEN and
    allocates 35/97 to equity. -/
theorem example_B_full_pipeline :
    (update_peak_value 100000 97000).1 = 100000 ∧
    calculate_drawdown 97000 100000 = 3 / 100 ∧
    determine_risk_zone (3 / 100) = RiskZone.GREEN ∧
    (calculate_cppi_allocation 97000 100000 RiskZone.GREEN).1 = 35 / 97 ∧
    (calculate_cppi_allocation 97000 100000 RiskZone.GREEN).2 = 62 / 97 ∧
    get_recommended_action RiskZone.GREEN (35 / 97) =
      "ALL CLEAR: Full equity allocation permitted" := by
  refine ⟨rfl, by norm_num [calculate_drawdown], by norm_num [determine_risk_zone], ?_, ?_, rfl⟩ <;>
    norm_num [calculate_cppi_allocation, floor_ratio, multipliers]

/-- audit_risk depends on the collaborator only through the holdings that
    fetch_live_holdings returns. -/
theorem audit_risk_fetch_congr
    (ks1 ks2 : Option (Except String (List Holding)))
    (store : Storage) (now : String)
    (h : fetch_live_holdings ks1 = fetch_live_holdings ks2) :
    audit_risk ks1 store now = audit_risk ks2 store now := by
  unfold audit_risk audit_pipeline
  rw [h]

/-- The fully evaluated no-session audit against the healthy store: the mock
    portfolio gives the RED assessment with the fabricated valuation. -/
theorem mock_audit_computation :
    audit_risk none healthy_store "t" =
      (AuditResponse.assessment mock_audit_assessment,
       { peak := 100000, ledger := ⟨[RiskZone.RED], []⟩,
         peak_write_fails := false, state_write_fails := false,
         event_write_fails := false }) := by
  norm_num [audit_risk, audit_pipeline, update_peak_step, save_state_step,
    log_event_step, fetch_live_holdings, get_mock_holdings, healthy_store,
    mock_audit_assessment, calculate_drawdown, determine_risk_zone,
    calculate_cppi_allocation, get_recommended_action, floor_ratio,
    multipliers, last_recorded_zone, max_def, min_def, Bind.bind,
    Except.bind]

/-- C8 counterexample: with the risk_events write faulted (last recorded
    zone GREEN, mock valuation classifying RED, so the event write runs),
    audit_risk returns the ERROR dictionary, not the computed risk
    assessment — the claim that the assessment is still returned on a
    storage failure is false on this code. -/
theorem C8_storage_failure_counterexample :
    (audit_risk none event_write_failing_store "t").1 =
      AuditResponse.errorResponse "event write failed" "t" ∧
    (audit_risk none event_write_failing_store "t").1.statusString =
      "ERROR" := by
  constructor <;>
    norm_num [audit_risk, audit_pipeline, update_peak_step, save_state_step,
      log_event_step, fetch_live_holdings, get_mock_holdings,
      event_write_failing_store, calculate_drawdown, determine_risk_zone,
      calculate_cppi_allocation, get_recommended_action, floor_ratio,
      multipliers, last_recorded_zone, AuditResponse.statusString,
      max_def, min_def, Bind.bind, Except.bind] <;>
    decide

/-- A raised update_peak_step error always carries the peak write failure
    message. -/
theorem update_peak_step_error_msg (store : Storage) (tv : ℚ)
    (p : String × Storage) (h : update_peak_step store tv = Except.error p) :
    p.1 = "peak write failed" := by
  unfold update_peak_step at h
  split at h
  · split at h
    · injection h with h2
      rw [← h2]
    · simp at h
  · simp at h

/-- A raised save_state_step error always carries the state write failure
    message. -/
theorem save_state_step_error_msg (store : Storage) (risk_zone : RiskZone)
    (p : String × Storage)
    (h : save_state_step store risk_zone = Except.error p) :
    p.1 = "state write failed" := by
  unfold save_state_step at h
  split at h
  · injection h with h2
    rw [← h2]
  · simp at h

/-- A raised log_event_step error always carries the event write failure
    message. -/
theorem log_event_step_error_msg (store : Storage)
    (prior : List RiskZone) (risk_zone : RiskZone) (p : String × Storage)
    (h : log_event_step store prior risk_zone = Except.error p) :
    p.1 = "event write failed" := by
  unfold log_event_step at h
  split at h
  · split at h
    · split at h
      · injection h with h2
        rw [← h2]
      · simp at h
    · simp at h
  · simp at h

/-- With the peak write not faulted, update_peak_step succeeds and changes
    nothing but (possibly) the stored peak. -/
theorem update_peak_step_ok_of_no_fault (store : Storage) (tv : ℚ)
    (hpeak : store.peak_write_fails = false) :
    ∃ st1, update_peak_step store tv = Except.ok st1 ∧
      st1.ledger = store.ledger ∧
      st1.state_write_fails = store.state_write_fails ∧
      st1.event_write_fails = store.event_write_fails := by
  unfold update_peak_step
  split
  · refine ⟨{ store with peak := tv }, ?_, rfl, rfl, rfl⟩
    rw [hpeak]
    simp
  · exact ⟨store, rfl, rfl, rfl, rfl⟩

/-- C8 amended: a storage failure during an audit never propagates an
    exception out of audit_risk, but the computed assessment is not returned
    either.  Any error raised inside the audit pipeline is one of the three
    storage failure messages and turns into the ERROR dictionary carrying
    that message; and each of the three write faults — peak (when the UPDATE
    executes, i.e. total exceeds the stored peak), state, and event (when a
    differing prior zone makes the event write execute) — does produce
    exactly that ERROR dictionary, for every collaborator and store. -/
theorem C8_storage_failure_amended
    (kite_session : Option (Except String (List Holding)))
    (store : Storage) (now : String) :
    (∀ e store2,
      audit_pipeline kite_session store now = Except.error (e, store2) →
      (e = "peak write failed" ∨ e = "state write failed" ∨
        e = "event write failed") ∧
      audit_risk kite_session store now =
        (AuditResponse.errorResponse e now, store2) ∧
      (audit_risk kite_session store now).1.statusString = "ERROR") ∧
    (store.peak_write_fails = true →
      audit_total_value kite_session > store.peak →
      (audit_risk kite_session store now).1 =
        AuditResponse.errorResponse "peak write failed" now) ∧
    (store.peak_write_fails = false → store.state_write_fails = true →
      (audit_risk kite_session store now).1 =
        AuditResponse.errorResponse "state write failed" now) ∧
    (store.peak_write_fails = false → store.state_write_fails = false →
      store.event_write_fails = true →
      ∀ prev, last_recorded_zone store.ledger.states = some prev →
        prev ≠ audit_zone kite_session store →
        (audit_risk kite_session store now).1 =
          AuditResponse.errorResponse "event write failed" now) := by
  refine ⟨?_, ?_, ?_, ?_⟩
  · intro e store2 h
    refine ⟨?_, by simp [audit_risk, h],
      by simp [audit_risk, h, AuditResponse.statusString]⟩
    unfold audit_pipeline at h
    simp only [bind, Except.bind] at h
    split at h
    · rename_i err heq
      injection h with h2
      have hm := update_peak_step_error_msg _ _ _ heq
      rw [h2] at hm
      exact Or.inl hm
    · rename_i st1 heq1
      split at h
      · rename_i err heq
        injection h with h2
        have hm := save_state_step_error_msg _ _ _ heq
        rw [h2] at hm
        exact Or.inr (Or.inl hm)
      · rename_i st2 heq2
        split at h
        · rename_i err heq
          injection h with h2
          have hm := log_event_step_error_msg _ _ _ _ heq
          rw [h2] at hm
          exact Or.inr (Or.inr hm)
        · simp at h
  · intro hflag hgt
    unfold audit_total_value at hgt
    unfold audit_risk audit_pipeline update_peak_step
    simp only [bind, Except.bind]
    rw [if_pos hgt, if_pos hflag]
  · intro hpeak hstate
    obtain ⟨st1, hok, _, hsf, _⟩ := update_peak_step_ok_of_no_fault store
      ((fetch_live_holdings kite_session).map Holding.value).sum hpeak
    have hsf2 : st1.state_write_fails = true := hsf.trans hstate
    unfold audit_risk audit_pipeline save_state_step
    simp only [bind, Except.bind, hok, hsf2, if_pos]
  · intro hpeak hstate hevent prev hprev hne
    obtain ⟨st1, hok, hledg, hsf, hef⟩ := update_peak_step_ok_of_no_fault store
      ((fetch_live_holdings kite_session).map Holding.value).sum hpeak
    have hsf2 : st1.state_write_fails = false := hsf.trans hstate
    have hef2 : st1.event_write_fails = true := hef.trans hevent
    simp only [audit_zone, audit_total_value] at hne
    rw [last_recorded_zone] at hprev
    unfold audit_risk audit_pipeline save_state_step log_event_step
    simp only [bind, Except.bind, hok, hsf2, hledg, hprev, hef2,
      last_recorded_zone, Bool.false_eq_true, if_false, ite_true, ite_false]
    rw [if_pos hne]

/-- Witness for C8 amended: a faulted peak write (peak 50000 below the mock
    total 62000) and a faulted state write each turn the no-session audit
    into the ERROR dictionary with the matching message. -/
theorem C8_storage_failure_amended_witness :
    (audit_risk none peak_write_failing_store "t").1 =
      AuditResponse.errorResponse "peak write failed" "t" ∧
    (audit_risk none state_write_failing_store "t").1 =
      AuditResponse.errorResponse "state write failed" "t" :=
  ⟨(C8_storage_failure_amended none peak_write_failing_store "t").2.1 rfl
    (by norm_num [audit_total_value, fetch_live_holdings, get_mock_holdings,
      peak_write_failing_store]),
   (C8_storage_failure_amended none state_write_failing_store "t").2.2.1
    rfl rfl⟩

/-- C9 counterexample: with no Kite session the collaborator cannot supply
    any valuation, yet audit_risk does not abort and does not return an
    explicit failure — it silently audits the fabricated mock portfolio
    (total 62000 against peak 100000) and returns a normal assessment
    carrying a fabricated RED-zone signal. -/
theorem C9_valuation_fallback_counterexample :
    (audit_risk none healthy_store "t").1 =
      AuditResponse.assessment mock_audit_assessment ∧
    (audit_risk none healthy_store "t").1.statusString = "RED" := by
  rw [mock_audit_computation]
  exact ⟨rfl, rfl⟩

/-- C9 amended: when the collaborator cannot supply holdings — no session,
    or the fetch raises any exception — fetch_live_holdings silently falls
    back to the hard-coded mock holdings (total value 62000) and the audit
    proceeds on that fabricated valuation, returning a normal assessment
    instead of aborting with an explicit failure. -/
theorem C9_valuation_fallback_amended (e : String) :
    fetch_live_holdings none = get_mock_holdings ∧
    fetch_live_holdings (some (Except.error e)) = get_mock_holdings ∧
    (get_mock_holdings.map Holding.value).sum = 62000 ∧
    (audit_risk (some (Except.error e)) healthy_store "t").1 =
      AuditResponse.assessment mock_audit_assessment := by
  refine ⟨rfl, rfl, by norm_num [get_mock_holdings], ?_⟩
  rw [audit_risk_fetch_congr (some (Except.error e)) none healthy_store "t" rfl,
    mock_audit_computation]

/-- C10: audit_risk is total at its interface.  For every collaborator
    behavior, store and timestamp it returns a response dictionary: the
    assessment when the try-block succeeds, and otherwise — whenever any
    internal step raises — the dictionary with status ERROR, the raised
    error message and the timestamp; no exception escapes to the caller. -/
theorem C10_audit_total_interface
    (kite_session : Option (Except String (List Holding)))
    (store : Storage) (now : String) :
    (∃ a store2,
      audit_pipeline kite_session store now = Except.ok (a, store2) ∧
      audit_risk kite_session store now = (AuditResponse.assessment a, store2) ∧
      (audit_risk kite_session store now).1.statusString = a.status.value) ∨
    (∃ e store2,
      audit_pipeline kite_session store now = Except.error (e, store2) ∧
      audit_risk kite_session store now =
        (AuditResponse.errorResponse e now, store2) ∧
      (audit_risk kite_session store now).1.statusString = "ERROR") := by
  cases h : audit_pipeline kite_session store now with
  | ok r =>
      obtain ⟨a, s2⟩ := r
      refine Or.inl ⟨a, s2, rfl, ?_, ?_⟩ <;>
        simp [audit_risk, h, AuditResponse.statusString]
  | error r =>
      obtain ⟨e, s2⟩ := r
      refine Or.inr ⟨e, s2, rfl, ?_, ?_⟩ <;>
        simp [audit_risk, h, AuditResponse.statusString]

end Mosaic
